import Mathlib

/-!
Verification of the donation-processing backend (donation, payment, bank and
notification services) against its specification.

The Python sources are shallowly embedded as pure Lean functions:

* SQLAlchemy tables become lists of records inside an explicit state record;
  a loaded-and-mutated ORM row becomes a functional update of the first list
  element with the matching key (keys are unique in every run of the system).
* `Numeric(12,2)` money columns are modeled as `Int` (fixed-point cents);
  the services never divide, so the arithmetic is exact in both worlds.
* `datetime` timestamps are modeled as `Nat` (comparison and assignment are
  the only operations the embedded code performs on them).
* SHA-256 (`hashlib.sha256(...).hexdigest()`) is modeled by the injective
  constructor `IdemKey.sha256` applied to the hashed content: the model
  idealizes collision resistance, and determinism of the digest is the
  function property of the constructor.
* `json.dumps` of each fixed response dictionary is modeled by a dedicated
  constructor carrying exactly the fields that vary; equality of the model
  responses therefore corresponds to byte-for-byte equality of the bodies.
-/

/-- Association-list lookup: first binding wins (mirrors a `SELECT ... WHERE
key = ...` against a table whose key column is unique). -/
def alookup {κ α : Type} [DecidableEq κ] : List (κ × α) → κ → Option α
  | [], _ => none
  | (k, v) :: rest, key => if k = key then some v else alookup rest key

/-- Overwrite-or-insert (mirrors a Redis `SETEX`, which overwrites). -/
def aupsert {κ α : Type} [DecidableEq κ] : List (κ × α) → κ → α → List (κ × α)
  | [], key, v => [(key, v)]
  | (k, w) :: rest, key, v =>
    if k = key then (key, v) :: rest else (k, w) :: aupsert rest key v

/-- An idempotency key is either the value of the `X-Idempotency-Key` header
or the SHA-256 digest of some content string.  The digest is modeled as an
injective constructor (collision-resistance idealization). -/
inductive IdemKey : Type
  | given : String → IdemKey
  | sha256 : String → IdemKey
deriving DecidableEq, Repr

/-- `generate_idempotency_key` (payment-service `utils/idempotency.py`):
SHA-256 of the given content string. -/
def generate_idempotency_key (content : String) : IdemKey :=
  IdemKey.sha256 content

/-- Key derivation of the webhook endpoint (`payments.py` lines 111-113):
the header if present, else the digest of the raw request body. -/
def webhook_idem_key (header : Option String) (rawBody : String) : IdemKey :=
  match header with
  | some k => IdemKey.given k
  | none => generate_idempotency_key rawBody

/-- Key derivation of the P2P transfer endpoint (`transactions.py` lines
61-64): the header if present, else the digest of
`from_account:to_account:amount:datetime.utcnow().isoformat()` — note that
the current wall-clock time is part of the hashed content. -/
def transfer_idem_key (header : Option String) (fromNumber toNumber : String)
    (amount : Int) (nowIso : String) : IdemKey :=
  match header with
  | some k => IdemKey.given k
  | none =>
    IdemKey.sha256
      (fromNumber ++ ":" ++ toNumber ++ ":" ++ toString amount ++ ":" ++ nowIso)

/-!
## Payment service (`src/services/payment-service`)

`app/models.py`, `utils/state_machine.py`, `utils/idempotency.py` and the
webhook handler of `app/api/payments.py`.
-/

/-- `PaymentTransaction` row (`app/models.py`).  Statuses are the strings the
service stores; `gateway_response` is kept as an opaque payload string. -/
structure PaymentTransaction : Type where
  id : String
  donationId : String
  paymentIntentId : String
  amount : Int
  currency : String
  status : String
  gateway : String
  gatewayResponse : Option String
  version : Nat
  createdAt : Nat
  updatedAt : Nat
deriving DecidableEq, Repr

/-- `PaymentStateHistory` row (`app/models.py`): the audit record appended on
every accepted transition.  `event_id` stores the idempotency key. -/
structure PaymentStateHistory : Type where
  paymentId : String
  fromStatus : String
  toStatus : String
  eventId : IdemKey
  eventTimestamp : Nat
  version : Nat
deriving DecidableEq, Repr

/-- Parsed `WebhookEvent` (`app/schemas.py`). -/
structure WebhookEvent : Type where
  eventType : String
  paymentIntentId : String
  status : String
  timestamp : Nat
  data : Option String
deriving DecidableEq, Repr

/-- Webhook response bodies (`payments.py`).  Each constructor stands for the
exact `json.dumps` string the handler builds, carrying the fields that vary:
`notFound` is the 404 error body, `ignoredOutOfOrder` the out-of-order body,
`rejectedInvalid from to` the invalid-transition body (whose message embeds
the two statuses), `processed id old new version` the success body. -/
inductive WebhookResp : Type
  | notFound : WebhookResp
  | ignoredOutOfOrder : WebhookResp
  | rejectedInvalid : String → String → WebhookResp
  | processed : String → String → String → Nat → WebhookResp
deriving DecidableEq, Repr

/-- Database plus Redis state of the payment service.  `intents` is the
`payment_transactions` table keyed by the unique `payment_intent_id`;
`idemDB` is the `idempotency_keys` table; `cache` is the Redis layer.  Both
idempotency layers store `(response_body, response_status)`. -/
structure PaymentState : Type where
  intents : List (String × PaymentTransaction)
  history : List PaymentStateHistory
  idemDB : List (IdemKey × (WebhookResp × Nat))
  cache : List (IdemKey × (WebhookResp × Nat))
deriving DecidableEq, Repr

/-- `VALID_TRANSITIONS` (`utils/state_machine.py`): the fixed transition
graph; `dict.get(status, [])` on an unknown status gives the empty list. -/
def VALID_TRANSITIONS (status : String) : List String :=
  if status = "INITIATED" then ["AUTHORIZED", "FAILED"]
  else if status = "AUTHORIZED" then ["CAPTURED", "FAILED", "REFUNDED"]
  else if status = "CAPTURED" then ["REFUNDED"]
  else if status = "FAILED" then []
  else if status = "REFUNDED" then []
  else []

/-- `validate_state_transition` (`utils/state_machine.py`). -/
def validate_state_transition (current_status new_status : String) : Bool :=
  (VALID_TRANSITIONS current_status).contains new_status

/-- `save_idempotency_record` (`utils/idempotency.py` lines 80-112): write the
response to Redis (`SETEX`, overwriting) and insert it into the database; a
unique-key conflict on the insert is silently tolerated (the existing row is
kept). -/
def save_idempotency_record (s : PaymentState) (key : IdemKey)
    (body : WebhookResp) (status : Nat) : PaymentState :=
  let s1 := { s with cache := aupsert s.cache key (body, status) }
  match alookup s1.idemDB key with
  | some _ => s1
  | none => { s1 with idemDB := (key, (body, status)) :: s1.idemDB }

/-- `handle_webhook` (`app/api/payments.py` lines 93-253), for an already
parsed event and an already derived idempotency key.  Returns the state after
the request together with the response body and HTTP status.  The Redis layer
is consulted first, then the `idempotency_keys` table (warming Redis on a
hit); a first-time request loads the intent by `payment_intent_id`, answers
404 when absent, ignores stale events, rejects invalid transitions, and
otherwise applies the transition, appends the `PaymentStateHistory` row and
caches the response. -/
def handle_webhook (s : PaymentState) (key : IdemKey) (ev : WebhookEvent) :
    PaymentState × WebhookResp × Nat :=
  match alookup s.cache key with
  | some (b, st) => (s, b, st)
  | none =>
    match alookup s.idemDB key with
    | some (b, st) => ({ s with cache := aupsert s.cache key (b, st) }, b, st)
    | none =>
      match alookup s.intents ev.paymentIntentId with
      | none =>
        (save_idempotency_record s key WebhookResp.notFound 404,
         WebhookResp.notFound, 404)
      | some payment =>
        if ev.timestamp < payment.updatedAt then
          (save_idempotency_record s key WebhookResp.ignoredOutOfOrder 200,
           WebhookResp.ignoredOutOfOrder, 200)
        else if !(validate_state_transition payment.status ev.status) then
          let b := WebhookResp.rejectedInvalid payment.status ev.status
          (save_idempotency_record s key b 400, b, 400)
        else
          let newVersion := payment.version + 1
          let p' : PaymentTransaction :=
            { payment with
              status := ev.status
              version := newVersion
              updatedAt := ev.timestamp
              gatewayResponse :=
                match ev.data with
                | some d => some d
                | none => payment.gatewayResponse }
          let h : PaymentStateHistory :=
            { paymentId := payment.id
              fromStatus := payment.status
              toStatus := ev.status
              eventId := key
              eventTimestamp := ev.timestamp
              version := newVersion }
          let s' := { s with
                      intents := aupsert s.intents ev.paymentIntentId p'
                      history := h :: s.history }
          let b := WebhookResp.processed payment.id payment.status ev.status newVersion
          (save_idempotency_record s' key b 200, b, 200)

/-- Fold a list of webhook requests (key plus parsed event) through the
handler, keeping only the state. -/
def process_webhooks (s : PaymentState) (reqs : List (IdemKey × WebhookEvent)) :
    PaymentState :=
  reqs.foldl (fun st r => (handle_webhook st r.1 r.2).1) s

/-- Version of the intent stored under `payment_intent_id` (0 when absent). -/
def versionOf (s : PaymentState) (ref : String) : Nat :=
  match alookup s.intents ref with
  | some p => p.version
  | none => 0

/-- `updated_at` of the intent stored under `payment_intent_id`. -/
def updatedAtOf (s : PaymentState) (ref : String) : Nat :=
  match alookup s.intents ref with
  | some p => p.updatedAt
  | none => 0

/-!
## Bank service (`src/services/bank-service`)

`app/models.py`, `utils/validation.py`, `utils/ledger.py` and the transfer
endpoint of `app/api/transactions.py`.
-/

/-- `BankAccount` row (`app/models.py`). -/
structure BankAccount : Type where
  id : String
  accountNumber : String
  accountHolderName : String
  balance : Int
  currency : String
  status : String
  version : Nat
  updatedAt : Nat
deriving DecidableEq, Repr

/-- `Transaction` row (`app/models.py`): every money movement. -/
structure Transaction : Type where
  id : String
  transactionType : String
  fromAccountId : String
  toAccountId : String
  amount : Int
  currency : String
  status : String
  description : String
  createdAt : Nat
  completedAt : Option Nat
deriving DecidableEq, Repr

/-- Database plus Redis state of the bank service.  `idemDB` is the
`transfer_idempotency` table and `cache` the Redis layer; both store the
successful `TransactionResponse` payload, modeled by the `Transaction` row it
serializes. -/
structure BankState : Type where
  accounts : List BankAccount
  transactions : List Transaction
  idemDB : List (IdemKey × Transaction)
  cache : List (IdemKey × Transaction)
deriving DecidableEq, Repr

/-- `SELECT ... WHERE id = ...` on `bank_accounts` (ids are unique). -/
def findById : List BankAccount → String → Option BankAccount
  | [], _ => none
  | a :: rest, i => if a.id = i then some a else findById rest i

/-- `SELECT ... WHERE account_number = ...` on `bank_accounts`. -/
def findByNumber : List BankAccount → String → Option BankAccount
  | [], _ => none
  | a :: rest, n => if a.accountNumber = n then some a else findByNumber rest n

/-- Functional update of the (unique) account row with the given id: the ORM
mutation `account.<field> = ...` on the loaded row. -/
def adjustById : List BankAccount → String → (BankAccount → BankAccount) →
    List BankAccount
  | [], _, _ => []
  | a :: rest, i, f =>
    if a.id = i then f a :: rest else a :: adjustById rest i f

/-- `SELECT ... WHERE id = ...` on `transactions`. -/
def findTxById : List Transaction → String → Option Transaction
  | [], _ => none
  | t :: rest, i => if t.id = i then some t else findTxById rest i

/-- Functional update of the transaction row with the given id. -/
def adjustTxById : List Transaction → String → (Transaction → Transaction) →
    List Transaction
  | [], _, _ => []
  | t :: rest, i, f =>
    if t.id = i then f t :: rest else t :: adjustTxById rest i f

/-- The `from_account` mutation of `execute_transfer` (`utils/ledger.py`
lines 51-53): `balance -= amount; updated_at = now; version += 1`. -/
def debitAccount (amount : Int) (now : Nat) (a : BankAccount) : BankAccount :=
  { a with balance := a.balance - amount, updatedAt := now, version := a.version + 1 }

/-- The `to_account` mutation of `execute_transfer` (`utils/ledger.py`
lines 55-57): `balance += amount; updated_at = now; version += 1`. -/
def creditAccount (amount : Int) (now : Nat) (a : BankAccount) : BankAccount :=
  { a with balance := a.balance + amount, updatedAt := now, version := a.version + 1 }

/-- `execute_transfer` (`utils/ledger.py` lines 11-74).  The function
performs no validation whatsoever: it records a TRANSFER entry, debits the
`from` row, credits the `to` row (both unconditionally) and commits with the
entry marked COMPLETED.  The returned state is the committed one; the PENDING
entry only exists inside the transaction, so the committed row is COMPLETED
with `completed_at` stamped.  `txId` stands for the fresh `uuid4` and `now`
for `datetime.utcnow()`. -/
def execute_transfer (s : BankState) (fromId toId : String) (amount : Int)
    (description : String) (txId : String) (now : Nat) :
    BankState × Transaction :=
  let cur := match findById s.accounts fromId with
             | some a => a.currency
             | none => ""
  let tx : Transaction :=
    { id := txId
      transactionType := "TRANSFER"
      fromAccountId := fromId
      toAccountId := toId
      amount := amount
      currency := cur
      status := "COMPLETED"
      description := description
      createdAt := now
      completedAt := some now }
  let accounts1 := adjustById s.accounts fromId (debitAccount amount now)
  let accounts2 := adjustById accounts1 toId (creditAccount amount now)
  ({ s with accounts := accounts2, transactions := tx :: s.transactions }, tx)

/-- `validate_account_status` (`utils/validation.py` lines 8-17). -/
def validate_account_status (a : BankAccount) : Bool × String :=
  if a.status ≠ "ACTIVE" then (false, "Account is " ++ a.status.toLower)
  else (true, "")

/-- `validate_sufficient_balance` (`utils/validation.py` lines 20-29). -/
def validate_sufficient_balance (a : BankAccount) (amount : Int) : Bool × String :=
  if a.balance < amount then
    (false, "Insufficient balance. Available: " ++ toString a.balance ++
            ", Required: " ++ toString amount)
  else (true, "")

/-- `validate_transfer` (`utils/validation.py` lines 32-66). -/
def validate_transfer (fromAcc toAcc : BankAccount) (amount : Int) :
    Bool × String :=
  let r1 := validate_account_status fromAcc
  if !r1.1 then (false, "Source account error: " ++ r1.2)
  else
    let r2 := validate_account_status toAcc
    if !r2.1 then (false, "Destination account error: " ++ r2.2)
    else
      let r3 := validate_sufficient_balance fromAcc amount
      if !r3.1 then (false, r3.2)
      else if fromAcc.id = toAcc.id then (false, "Cannot transfer to same account")
      else if fromAcc.currency ≠ toAcc.currency then
        (false, "Currency mismatch: " ++ fromAcc.currency ++ " vs " ++ toAcc.currency)
      else (true, "")

/-- Parsed `TransferCreate` request plus the optional header
(`app/schemas.py`, `transactions.py`). -/
structure TransferReq : Type where
  fromNumber : String
  toNumber : String
  amount : Int
  description : Option String
  header : Option String
deriving DecidableEq, Repr

/-- Responses of the transfer endpoint: 201 with the serialized transaction,
404 for a missing account, 400 for a validation failure. -/
inductive TransferResp : Type
  | created : Transaction → TransferResp
  | notFound : String → TransferResp
  | badRequest : String → TransferResp
deriving DecidableEq, Repr

/-- Outcome of one call of the transfer endpoint: the final state, the list
of database states that became durable at each `db.commit()` (in execution
order), and the response. -/
structure TransferOutcome : Type where
  state : BankState
  commits : List BankState
  response : TransferResp
deriving DecidableEq, Repr

/-- `create_transfer` (`app/api/transactions.py` lines 26-198).  Derives the
idempotency key (falling back to the timestamped hash), consults Redis then
the `transfer_idempotency` table (warming Redis on a database hit), loads the
two accounts, validates, and on the first-time path runs `execute_transfer` —
whose `db.commit()` makes the balance updates and the COMPLETED entry durable
— and only afterwards inserts and commits the idempotency record.  The
`commits` field records the durable state after each of those two commits. -/
def create_transfer (s : BankState) (req : TransferReq) (now : Nat)
    (nowIso : String) (txId : String) : TransferOutcome :=
  let key := transfer_idem_key req.header req.fromNumber req.toNumber req.amount nowIso
  match alookup s.cache key with
  | some tx => ⟨s, [], TransferResp.created tx⟩
  | none =>
    match alookup s.idemDB key with
    | some tx =>
      ⟨{ s with cache := aupsert s.cache key tx }, [], TransferResp.created tx⟩
    | none =>
      match findByNumber s.accounts req.fromNumber with
      | none => ⟨s, [], TransferResp.notFound "source"⟩
      | some fromAcc =>
        match findByNumber s.accounts req.toNumber with
        | none => ⟨s, [], TransferResp.notFound "destination"⟩
        | some toAcc =>
          let v := validate_transfer fromAcc toAcc req.amount
          if !v.1 then ⟨s, [], TransferResp.badRequest v.2⟩
          else
            let descr := match req.description with
                         | some d => d
                         | none => "Transfer to " ++ toAcc.accountHolderName
            let r := execute_transfer s fromAcc.id toAcc.id req.amount descr txId now
            let s2 := { r.1 with cache := aupsert r.1.cache key r.2 }
            let s3 := { s2 with idemDB := (key, r.2) :: s2.idemDB }
            ⟨s3, [r.1, s3], TransferResp.created r.2⟩

/-- Fold a list of transfer requests through the endpoint (each with its own
wall-clock time and fresh transaction id), keeping only the state. -/
def process_transfers (s : BankState)
    (reqs : List (TransferReq × Nat × String × String)) : BankState :=
  reqs.foldl (fun st r => (create_transfer st r.1 r.2.1 r.2.2.1 r.2.2.2).state) s

/-- Sum of all account balances. -/
def sumBalances (s : BankState) : Int :=
  (s.accounts.map (fun a => a.balance)).sum

/-- Balance of the account with the given id (0 when absent). -/
def balanceOf (s : BankState) (i : String) : Int :=
  match findById s.accounts i with
  | some a => a.balance
  | none => 0

/-- Version of the account with the given id (0 when absent). -/
def accountVersionOf (s : BankState) (i : String) : Nat :=
  match findById s.accounts i with
  | some a => a.version
  | none => 0

/-- `reverse_transaction` (`utils/ledger.py` lines 94-133).  Loads the
original entry; errors (a raised `ValueError`, leaving the state untouched)
unless it is a COMPLETED TRANSFER; otherwise runs `execute_transfer` with the
accounts swapped and then marks the original entry REVERSED.  `newTxId`
stands for the fresh `uuid4` of the reversal entry. -/
def reverse_transaction (s : BankState) (txId : String) (newTxId : String)
    (now : Nat) : BankState × Except String Transaction :=
  match findTxById s.transactions txId with
  | none => (s, Except.error "Transaction not found")
  | some original =>
    if original.status ≠ "COMPLETED" then
      (s, Except.error "Only completed transactions can be reversed")
    else if original.transactionType ≠ "TRANSFER" then
      (s, Except.error "Only transfers can be reversed")
    else
      let r := execute_transfer s original.toAccountId original.fromAccountId
                 original.amount ("Reversal of transaction " ++ txId) newTxId now
      let s2 := { r.1 with
                  transactions := adjustTxById r.1.transactions txId
                    (fun t => { t with status := "REVERSED" }) }
      (s2, Except.ok r.2)

/-!
## Donation service (`src/services/donation-service`)

`app/api/donations.py` (pledge creation) and `utils/outbox.py`.
-/

/-- `Donation` row (payload fields the outbox event snapshots). -/
structure Donation : Type where
  id : String
  campaignId : String
  donorEmail : String
  amount : Int
  currency : String
  status : String
  paymentIntentId : Option String
  extraData : Option String
  createdAt : Nat
  updatedAt : Nat
deriving DecidableEq, Repr

/-- `OutboxEvent` row (`utils/outbox.py` lines 20-35): aggregate id, event
type and a JSON snapshot of the donation, modeled by the `Donation` value it
serializes. -/
structure OutboxEvent : Type where
  aggregateId : String
  eventType : String
  payload : Donation
deriving DecidableEq, Repr

/-- Database state of the donation service. -/
structure DonationState : Type where
  donations : List Donation
  outbox : List OutboxEvent
deriving DecidableEq, Repr

/-- `create_outbox_event` (`utils/outbox.py` lines 8-37): builds the outbox
row for the given donation; the caller adds it to the pending transaction. -/
def create_outbox_event (donation : Donation) (eventType : String) : OutboxEvent :=
  { aggregateId := donation.id, eventType := eventType, payload := donation }

/-- Parsed `DonationCreate` request. -/
structure DonationCreate : Type where
  campaignId : String
  donorEmail : String
  amount : Int
  currency : String
  extraData : Option String
deriving DecidableEq, Repr

/-- Responses of `create_donation`: 201 with the donation, or the 500 raised
after rollback when anything in the transaction fails. -/
inductive DonationResp : Type
  | created : Donation → DonationResp
  | serverError : DonationResp
deriving DecidableEq, Repr

/-- `create_donation` (`app/api/donations.py` lines 24-88).  The donation row
and its `DonationCreated` outbox row are both added to one pending
transaction and committed together; `commitOk` is the outcome of that single
`db.commit()` — on failure the `except` branch rolls the whole transaction
back, so neither row persists.  `newId` stands for the fresh `uuid4`. -/
def create_donation (s : DonationState) (req : DonationCreate) (newId : String)
    (now : Nat) (commitOk : Bool) : DonationState × DonationResp :=
  let d : Donation :=
    { id := newId
      campaignId := req.campaignId
      donorEmail := req.donorEmail
      amount := req.amount
      currency := req.currency
      status := "PENDING"
      paymentIntentId := none
      extraData := req.extraData
      createdAt := now
      updatedAt := now }
  let ev := create_outbox_event d "DonationCreated"
  if commitOk then
    ({ donations := d :: s.donations, outbox := ev :: s.outbox },
     DonationResp.created d)
  else (s, DonationResp.serverError)

/-- Is there a donation row with this id? -/
def hasDonation (s : DonationState) (i : String) : Bool :=
  s.donations.any (fun d => d.id = i)

/-- Is there an outbox row for this aggregate id? -/
def hasOutboxFor (s : DonationState) (i : String) : Bool :=
  s.outbox.any (fun e => e.aggregateId = i)

/-!
## Notification service (`src/services/notification-service`)

`app/models.py` and the consumer callback of `utils/consumer.py`.
-/

/-- `Notification` row (`app/models.py` lines 12-29).  The table's only
uniqueness is the random `id` primary key: there is no event-kind column and
no uniqueness constraint over `(donation_id, event kind)`. -/
structure Notification : Type where
  id : String
  donationId : String
  recipient : String
  notifType : String
  status : String
  templateId : String
  retryCount : Nat
  sentAt : Option Nat
deriving DecidableEq, Repr

/-- A delivered donation event message (the envelope payload fields the
callback reads). -/
structure DonationEventMsg : Type where
  eventType : String
  donationId : String
  donorEmail : String
  amount : Int
  currency : String
  status : String
deriving DecidableEq, Repr

/-- A `send_email(recipient, template_id, data)` call that was made. -/
structure EmailSend : Type where
  recipient : String
  templateId : String
deriving DecidableEq, Repr

/-- State of the notification service: the `notifications` table and the
log of email sends attempted. -/
structure NotifState : Type where
  notifications : List Notification
  emails : List EmailSend
deriving DecidableEq, Repr

/-- The consumer `callback` (`utils/consumer.py` lines 61-123) on one bus
delivery: unconditionally inserts a fresh `Notification` row (PENDING, new
`uuid4` id) and commits, calls `send_email`, then updates the row to
SENT/FAILED and commits again.  No existing-row check and no uniqueness
constraint is involved, so nothing relates this delivery to earlier ones.
`newId` stands for the fresh `uuid4`, `emailOk` for the send outcome. -/
def process_donation_event (s : NotifState) (msg : DonationEventMsg)
    (newId : String) (emailOk : Bool) (now : Nat) : NotifState :=
  let n : Notification :=
    { id := newId
      donationId := msg.donationId
      recipient := msg.donorEmail
      notifType := "EMAIL"
      status := if emailOk then "SENT" else "FAILED"
      templateId := "donation_confirmation"
      retryCount := if emailOk then 0 else 1
      sentAt := if emailOk then some now else none }
  { notifications := n :: s.notifications
    emails := s.emails ++ [⟨msg.donorEmail, "donation_confirmation"⟩] }

/-- Number of notification rows for a given donation id. -/
def notifCountFor (s : NotifState) (donationId : String) : Nat :=
  (s.notifications.filter (fun n => n.donationId = donationId)).length

/-!
## Concrete fixtures

Small concrete states used by the closed instantiations below (an intent in
INITIATED, two ACTIVE USD accounts, and the corresponding requests).
-/

/-- A freshly created intent `pi_X` in INITIATED (as `create_payment_intent`
writes it), last updated at time 3. -/
def intentW : PaymentTransaction :=
  { id := "11111111-aaaa-bbbb-cccc-000000000001"
    donationId := "d-1"
    paymentIntentId := "pi_X"
    amount := 10000
    currency := "USD"
    status := "INITIATED"
    gateway := "stripe"
    gatewayResponse := some "client_secret"
    version := 1
    createdAt := 3
    updatedAt := 3 }

/-- Payment-service state holding only `intentW`, with empty idempotency
layers and no history. -/
def payStateW : PaymentState :=
  { intents := [("pi_X", intentW)], history := [], idemDB := [], cache := [] }

/-- A gateway event proposing AUTHORIZED at time 5 (newer than `intentW`). -/
def evAuthW : WebhookEvent :=
  { eventType := "payment.authorized"
    paymentIntentId := "pi_X"
    status := "AUTHORIZED"
    timestamp := 5
    data := some "gw-payload" }

/-- A gateway event proposing CAPTURED at time 1 (older than `intentW`). -/
def evStaleW : WebhookEvent :=
  { eventType := "payment.captured"
    paymentIntentId := "pi_X"
    status := "CAPTURED"
    timestamp := 1
    data := some "gw-late" }

/-- An ACTIVE USD account with balance 500.00 (50000 cents). -/
def acctAW : BankAccount :=
  { id := "acct-a"
    accountNumber := "1111111111"
    accountHolderName := "Alice"
    balance := 50000
    currency := "USD"
    status := "ACTIVE"
    version := 1
    updatedAt := 0 }

/-- An ACTIVE USD account with balance 100.00 (10000 cents). -/
def acctBW : BankAccount :=
  { id := "acct-b"
    accountNumber := "2222222222"
    accountHolderName := "Bob"
    balance := 10000
    currency := "USD"
    status := "ACTIVE"
    version := 1
    updatedAt := 0 }

/-- Bank state holding the two accounts and nothing else. -/
def bankStateW : BankState :=
  { accounts := [acctAW, acctBW], transactions := [], idemDB := [], cache := [] }

/-- A first-time transfer request of 75.00 from Alice to Bob under header
key K. -/
def transferReqW : TransferReq :=
  { fromNumber := "1111111111"
    toNumber := "2222222222"
    amount := 7500
    description := some "rent"
    header := some "K" }

/-- An ACTIVE account with balance 10.00 only, for the unguarded-ledger
instantiation. -/
def acctPoorW : BankAccount :=
  { id := "acct-p"
    accountNumber := "3333333333"
    accountHolderName := "Pat"
    balance := 1000
    currency := "USD"
    status := "ACTIVE"
    version := 1
    updatedAt := 0 }

/-- Bank state for the unguarded-ledger instantiation. -/
def bankStatePoorW : BankState :=
  { accounts := [acctPoorW, acctBW], transactions := [], idemDB := [], cache := [] }

/-- A pledge-creation request. -/
def donationReqW : DonationCreate :=
  { campaignId := "camp-1"
    donorEmail := "donor@example.org"
    amount := 10000
    currency := "USD"
    extraData := none }

/-- A delivered DonationCreated event message. -/
def donationMsgW : DonationEventMsg :=
  { eventType := "DonationCreated"
    donationId := "don-1"
    donorEmail := "donor@example.org"
    amount := 10000
    currency := "USD"
    status := "PENDING" }

/-!
## Helper lemmas
-/

theorem alookup_aupsert_self {κ α : Type} [DecidableEq κ]
    (l : List (κ × α)) (k : κ) (v : α) : alookup (aupsert l k v) k = some v := by
  induction l with
  | nil => simp [aupsert, alookup]
  | cons hd tl ih =>
    obtain ⟨k', w⟩ := hd
    by_cases h : k' = k
    · simp [aupsert, h, alookup]
    · simp [aupsert, h, alookup, ih]

theorem alookup_aupsert_ne {κ α : Type} [DecidableEq κ]
    (l : List (κ × α)) (k k' : κ) (v : α) (h : k' ≠ k) :
    alookup (aupsert l k v) k' = alookup l k' := by
  induction l with
  | nil => simp [aupsert, alookup, Ne.symm h]
  | cons hd tl ih =>
    obtain ⟨k₀, w⟩ := hd
    by_cases h₀ : k₀ = k
    · subst h₀
      simp [aupsert, alookup, Ne.symm h]
    · simp [aupsert, h₀, alookup, ih]

theorem string_append_left_cancel {p s t : String} (h : p ++ s = p ++ t) :
    s = t := by
  have hd : (p ++ s).data = (p ++ t).data := by rw [h]
  simp only [String.data_append] at hd
  cases s; cases t
  simp only [List.append_cancel_left_eq] at hd
  exact congrArg String.mk hd

theorem save_idem_intents (s : PaymentState) (key : IdemKey)
    (b : WebhookResp) (st : Nat) :
    (save_idempotency_record s key b st).intents = s.intents := by
  simp only [save_idempotency_record]
  split <;> rfl

theorem save_idem_history (s : PaymentState) (key : IdemKey)
    (b : WebhookResp) (st : Nat) :
    (save_idempotency_record s key b st).history = s.history := by
  simp only [save_idempotency_record]
  split <;> rfl

theorem save_idem_cache (s : PaymentState) (key : IdemKey)
    (b : WebhookResp) (st : Nat) :
    alookup (save_idempotency_record s key b st).cache key = some (b, st) := by
  simp only [save_idempotency_record]
  split <;> exact alookup_aupsert_self s.cache key (b, st)

theorem save_idem_idemDB (s : PaymentState) (key : IdemKey)
    (b : WebhookResp) (st : Nat) (h : alookup s.idemDB key = none) :
    alookup (save_idempotency_record s key b st).idemDB key = some (b, st) := by
  simp only [save_idempotency_record]
  split
  · rename_i heq
    exact absurd (h ▸ heq) (by simp)
  · simp [alookup]

theorem handle_webhook_notFound (s : PaymentState) (key : IdemKey)
    (ev : WebhookEvent)
    (hc : alookup s.cache key = none) (hd : alookup s.idemDB key = none)
    (hi : alookup s.intents ev.paymentIntentId = none) :
    handle_webhook s key ev =
      (save_idempotency_record s key WebhookResp.notFound 404,
       WebhookResp.notFound, 404) := by
  unfold handle_webhook
  rw [hc, hd, hi]

theorem handle_webhook_stale (s : PaymentState) (key : IdemKey)
    (ev : WebhookEvent) (p : PaymentTransaction)
    (hc : alookup s.cache key = none) (hd : alookup s.idemDB key = none)
    (hi : alookup s.intents ev.paymentIntentId = some p)
    (hts : ev.timestamp < p.updatedAt) :
    handle_webhook s key ev =
      (save_idempotency_record s key WebhookResp.ignoredOutOfOrder 200,
       WebhookResp.ignoredOutOfOrder, 200) := by
  unfold handle_webhook
  rw [hc, hd, hi]
  simp [hts]

theorem handle_webhook_invalid (s : PaymentState) (key : IdemKey)
    (ev : WebhookEvent) (p : PaymentTransaction)
    (hc : alookup s.cache key = none) (hd : alookup s.idemDB key = none)
    (hi : alookup s.intents ev.paymentIntentId = some p)
    (hts : ¬ ev.timestamp < p.updatedAt)
    (hv : validate_state_transition p.status ev.status = false) :
    handle_webhook s key ev =
      (save_idempotency_record s key
        (WebhookResp.rejectedInvalid p.status ev.status) 400,
       WebhookResp.rejectedInvalid p.status ev.status, 400) := by
  unfold handle_webhook
  rw [hc, hd, hi]
  simp [hts, hv]

theorem handle_webhook_valid (s : PaymentState) (key : IdemKey)
    (ev : WebhookEvent) (p : PaymentTransaction)
    (hc : alookup s.cache key = none) (hd : alookup s.idemDB key = none)
    (hi : alookup s.intents ev.paymentIntentId = some p)
    (hts : ¬ ev.timestamp < p.updatedAt)
    (hv : validate_state_transition p.status ev.status = true) :
    handle_webhook s key ev =
      (save_idempotency_record
        { s with
          intents := aupsert s.intents ev.paymentIntentId
            { p with
              status := ev.status
              version := p.version + 1
              updatedAt := ev.timestamp
              gatewayResponse :=
                match ev.data with
                | some d => some d
                | none => p.gatewayResponse }
          history :=
            { paymentId := p.id
              fromStatus := p.status
              toStatus := ev.status
              eventId := key
              eventTimestamp := ev.timestamp
              version := p.version + 1 } :: s.history }
        key (WebhookResp.processed p.id p.status ev.status (p.version + 1)) 200,
       WebhookResp.processed p.id p.status ev.status (p.version + 1), 200) := by
  unfold handle_webhook
  rw [hc, hd, hi]
  simp [hts, hv]

theorem handle_webhook_fresh_caches (s : PaymentState) (key : IdemKey)
    (ev : WebhookEvent)
    (hc : alookup s.cache key = none) (hd : alookup s.idemDB key = none) :
    alookup (handle_webhook s key ev).1.cache key =
      some ((handle_webhook s key ev).2.1, (handle_webhook s key ev).2.2) := by
  cases hi : alookup s.intents ev.paymentIntentId with
  | none =>
    rw [handle_webhook_notFound s key ev hc hd hi]
    exact save_idem_cache ..
  | some p =>
    by_cases hts : ev.timestamp < p.updatedAt
    · rw [handle_webhook_stale s key ev p hc hd hi hts]
      exact save_idem_cache ..
    · cases hv : validate_state_transition p.status ev.status with
      | false =>
        rw [handle_webhook_invalid s key ev p hc hd hi hts hv]
        exact save_idem_cache ..
      | true =>
        rw [handle_webhook_valid s key ev p hc hd hi hts hv]
        exact save_idem_cache ..

/-- C1.  A webhook request processed first-time under idempotency key `K`
caches its response, and any later webhook request carrying the same key `K`
(whatever event it carries) returns the stored response byte-for-byte — same
body and same HTTP status — and leaves the entire stored state unchanged: in
particular the `PaymentTransaction`'s version, status and `updated_at` are
those after the first request and no `PaymentStateHistory` row is appended. -/
theorem webhook_replay_idempotent (s : PaymentState) (key : IdemKey)
    (ev ev' : WebhookEvent)
    (hc : alookup s.cache key = none) (hd : alookup s.idemDB key = none) :
    handle_webhook (handle_webhook s key ev).1 key ev' =
      ((handle_webhook s key ev).1, (handle_webhook s key ev).2.1,
       (handle_webhook s key ev).2.2) ∧
    alookup (handle_webhook s key ev).1.cache key =
      some ((handle_webhook s key ev).2.1, (handle_webhook s key ev).2.2) := by
  have hcache := handle_webhook_fresh_caches s key ev hc hd
  refine ⟨?_, hcache⟩
  generalize hgen : handle_webhook s key ev = r at hcache ⊢
  obtain ⟨s1, b1, st1⟩ := r
  conv_lhs => unfold handle_webhook
  rw [hcache]

/-- Closed instantiation of C1: from the fixture state, first request with
key `K` and event `evAuthW`, then a replay with the same key. -/
theorem webhook_replay_idempotent_witness :
    alookup payStateW.cache (IdemKey.given "K") = none ∧
    alookup payStateW.idemDB (IdemKey.given "K") = none ∧
    handle_webhook (handle_webhook payStateW (IdemKey.given "K") evAuthW).1
        (IdemKey.given "K") evStaleW =
      ((handle_webhook payStateW (IdemKey.given "K") evAuthW).1,
       (handle_webhook payStateW (IdemKey.given "K") evAuthW).2.1,
       (handle_webhook payStateW (IdemKey.given "K") evAuthW).2.2) :=
  ⟨by decide, by decide,
   (webhook_replay_idempotent payStateW (IdemKey.given "K") evAuthW evStaleW
     (by decide) (by decide)).1⟩

/-- C6.  A first-time webhook event whose timestamp is strictly earlier than
the stored intent's `updated_at` yields 200 with the out-of-order body, that
response is cached under the idempotency key in both layers, and the
`payment_transactions` table (status, version, `updated_at`, gateway
snapshot of every intent) and the history table are left unchanged. -/
theorem webhook_out_of_order_ignored (s : PaymentState) (key : IdemKey)
    (ev : WebhookEvent) (p : PaymentTransaction)
    (hc : alookup s.cache key = none) (hd : alookup s.idemDB key = none)
    (hi : alookup s.intents ev.paymentIntentId = some p)
    (hts : ev.timestamp < p.updatedAt) :
    (handle_webhook s key ev).2 = (WebhookResp.ignoredOutOfOrder, 200) ∧
    (handle_webhook s key ev).1.intents = s.intents ∧
    (handle_webhook s key ev).1.history = s.history ∧
    alookup (handle_webhook s key ev).1.cache key =
      some (WebhookResp.ignoredOutOfOrder, 200) ∧
    alookup (handle_webhook s key ev).1.idemDB key =
      some (WebhookResp.ignoredOutOfOrder, 200) := by
  rw [handle_webhook_stale s key ev p hc hd hi hts]
  exact ⟨rfl, save_idem_intents .., save_idem_history .., save_idem_cache ..,
         save_idem_idemDB s key _ _ hd⟩

/-- Closed instantiation of C6: the fixture intent was updated at time 3 and
the event carries timestamp 1. -/
theorem webhook_out_of_order_ignored_witness :
    alookup payStateW.intents evStaleW.paymentIntentId = some intentW ∧
    evStaleW.timestamp < intentW.updatedAt ∧
    (handle_webhook payStateW (IdemKey.given "K6") evStaleW).2 =
      (WebhookResp.ignoredOutOfOrder, 200) ∧
    (handle_webhook payStateW (IdemKey.given "K6") evStaleW).1.intents =
      payStateW.intents :=
  ⟨by decide, by decide,
   (webhook_out_of_order_ignored payStateW (IdemKey.given "K6") evStaleW intentW
     (by decide) (by decide) (by decide) (by decide)).1,
   (webhook_out_of_order_ignored payStateW (IdemKey.given "K6") evStaleW intentW
     (by decide) (by decide) (by decide) (by decide)).2.1⟩

theorem handle_webhook_cacheHit (s : PaymentState) (key : IdemKey)
    (ev : WebhookEvent) (b : WebhookResp) (st : Nat)
    (h : alookup s.cache key = some (b, st)) :
    handle_webhook s key ev = (s, b, st) := by
  unfold handle_webhook
  rw [h]

theorem handle_webhook_dbHit (s : PaymentState) (key : IdemKey)
    (ev : WebhookEvent) (b : WebhookResp) (st : Nat)
    (hc : alookup s.cache key = none)
    (h : alookup s.idemDB key = some (b, st)) :
    handle_webhook s key ev =
      ({ s with cache := aupsert s.cache key (b, st) }, b, st) := by
  unfold handle_webhook
  rw [hc, h]

theorem handle_webhook_mono (s : PaymentState) (key : IdemKey)
    (ev : WebhookEvent) (ref : String) :
    versionOf s ref ≤ versionOf (handle_webhook s key ev).1 ref ∧
    updatedAtOf s ref ≤ updatedAtOf (handle_webhook s key ev).1 ref := by
  cases hcc : alookup s.cache key with
  | some v =>
    obtain ⟨b, st⟩ := v
    rw [handle_webhook_cacheHit s key ev b st hcc]
    exact ⟨le_refl _, le_refl _⟩
  | none =>
  cases hdd : alookup s.idemDB key with
  | some v =>
    obtain ⟨b, st⟩ := v
    rw [handle_webhook_dbHit s key ev b st hcc hdd]
    exact ⟨le_refl _, le_refl _⟩
  | none =>
  cases hi : alookup s.intents ev.paymentIntentId with
  | none =>
    rw [handle_webhook_notFound s key ev hcc hdd hi]
    rw [versionOf, versionOf, updatedAtOf, updatedAtOf, save_idem_intents]
    exact ⟨le_refl _, le_refl _⟩
  | some p =>
    by_cases hts : ev.timestamp < p.updatedAt
    · rw [handle_webhook_stale s key ev p hcc hdd hi hts]
      rw [versionOf, versionOf, updatedAtOf, updatedAtOf, save_idem_intents]
      exact ⟨le_refl _, le_refl _⟩
    · cases hv : validate_state_transition p.status ev.status with
      | false =>
        rw [handle_webhook_invalid s key ev p hcc hdd hi hts hv]
        rw [versionOf, versionOf, updatedAtOf, updatedAtOf, save_idem_intents]
        exact ⟨le_refl _, le_refl _⟩
      | true =>
        rw [handle_webhook_valid s key ev p hcc hdd hi hts hv]
        rw [versionOf, versionOf, updatedAtOf, updatedAtOf, save_idem_intents]
        by_cases href : ref = ev.paymentIntentId
        · subst href
          rw [alookup_aupsert_self, hi]
          exact ⟨Nat.le_succ _, Nat.le_of_not_lt hts⟩
        · rw [alookup_aupsert_ne _ _ _ _ href]
          exact ⟨le_refl _, le_refl _⟩

theorem process_webhooks_mono (reqs : List (IdemKey × WebhookEvent))
    (s : PaymentState) (ref : String) :
    versionOf s ref ≤ versionOf (process_webhooks s reqs) ref ∧
    updatedAtOf s ref ≤ updatedAtOf (process_webhooks s reqs) ref := by
  induction reqs generalizing s with
  | nil => exact ⟨le_refl _, le_refl _⟩
  | cons hd tl ih =>
    have h1 := handle_webhook_mono s hd.1 hd.2 ref
    have h2 := ih (handle_webhook s hd.1 hd.2).1
    exact ⟨le_trans h1.1 h2.1, le_trans h1.2 h2.2⟩

/-- C3.  (i) `validate_state_transition` realizes exactly the fixed graph
INITIATED→{AUTHORIZED,FAILED}, AUTHORIZED→{CAPTURED,FAILED,REFUNDED},
CAPTURED→{REFUNDED}, FAILED and REFUNDED terminal.  (ii) For a first-time,
non-stale webhook event on a stored intent: an illegal transition yields 400
with the invalid-transition body and leaves the intents table (status,
version, `updated_at`) unchanged, while a legal transition is applied with
version incremented by exactly 1 and `updated_at` set to the event timestamp.
(iii) Across any sequence of webhook requests, every intent's version and
`updated_at` are monotone (version strictly increases exactly at accepted
transitions, by (ii)). -/
theorem webhook_transition_graph :
    (∀ s' : String,
      (validate_state_transition "INITIATED" s' = true ↔
        s' = "AUTHORIZED" ∨ s' = "FAILED") ∧
      (validate_state_transition "AUTHORIZED" s' = true ↔
        s' = "CAPTURED" ∨ s' = "FAILED" ∨ s' = "REFUNDED") ∧
      (validate_state_transition "CAPTURED" s' = true ↔ s' = "REFUNDED") ∧
      validate_state_transition "FAILED" s' = false ∧
      validate_state_transition "REFUNDED" s' = false) ∧
    (∀ (s : PaymentState) (key : IdemKey) (ev : WebhookEvent)
       (p : PaymentTransaction),
      alookup s.cache key = none → alookup s.idemDB key = none →
      alookup s.intents ev.paymentIntentId = some p →
      ¬ ev.timestamp < p.updatedAt →
      (validate_state_transition p.status ev.status = false →
        (handle_webhook s key ev).2 =
          (WebhookResp.rejectedInvalid p.status ev.status, 400) ∧
        (handle_webhook s key ev).1.intents = s.intents) ∧
      (validate_state_transition p.status ev.status = true →
        (handle_webhook s key ev).2 =
          (WebhookResp.processed p.id p.status ev.status (p.version + 1), 200) ∧
        alookup (handle_webhook s key ev).1.intents ev.paymentIntentId =
          some { p with
                 status := ev.status
                 version := p.version + 1
                 updatedAt := ev.timestamp
                 gatewayResponse :=
                   match ev.data with
                   | some d => some d
                   | none => p.gatewayResponse })) ∧
    (∀ (s : PaymentState) (reqs : List (IdemKey × WebhookEvent)) (ref : String),
      versionOf s ref ≤ versionOf (process_webhooks s reqs) ref ∧
      updatedAtOf s ref ≤ updatedAtOf (process_webhooks s reqs) ref) := by
  refine ⟨?_, ?_, ?_⟩
  · intro s'
    refine ⟨?_, ?_, ?_, ?_, ?_⟩ <;>
      simp [validate_state_transition, VALID_TRANSITIONS]
  · intro s key ev p hc hd hi hts
    constructor
    · intro hv
      rw [handle_webhook_invalid s key ev p hc hd hi hts hv]
      exact ⟨rfl, save_idem_intents ..⟩
    · intro hv
      rw [handle_webhook_valid s key ev p hc hd hi hts hv]
      refine ⟨rfl, ?_⟩
      rw [save_idem_intents]
      exact alookup_aupsert_self ..
  · intro s reqs ref
    exact process_webhooks_mono reqs s ref

/-- Closed instantiation of C3: on the fixture intent (INITIATED, version 1)
a CAPTURED event is rejected with 400 leaving the table unchanged, and an
AUTHORIZED event is applied with version 2. -/
theorem webhook_transition_graph_witness :
    (handle_webhook payStateW (IdemKey.given "K3a")
      { evStaleW with timestamp := 7 }).2 =
        (WebhookResp.rejectedInvalid "INITIATED" "CAPTURED", 400) ∧
    (handle_webhook payStateW (IdemKey.given "K3b") evAuthW).2 =
        (WebhookResp.processed intentW.id "INITIATED" "AUTHORIZED" 2, 200) := by
  constructor
  · exact ((webhook_transition_graph.2.1 payStateW (IdemKey.given "K3a")
      { evStaleW with timestamp := 7 } intentW (by decide) (by decide)
      (by decide) (by decide)).1 (by decide)).1
  · exact ((webhook_transition_graph.2.1 payStateW (IdemKey.given "K3b")
      evAuthW intentW (by decide) (by decide) (by decide) (by decide)).2
      (by decide)).1

theorem findById_adjustById_self (l : List BankAccount) (i : String)
    (f : BankAccount → BankAccount) (hf : ∀ b, (f b).id = b.id) :
    findById (adjustById l i f) i = (findById l i).map f := by
  induction l with
  | nil => rfl
  | cons a rest ih =>
    by_cases h : a.id = i
    · simp [adjustById, findById, h, hf]
    · simp [adjustById, findById, h, ih]

theorem findById_adjustById_ne (l : List BankAccount) (i j : String)
    (f : BankAccount → BankAccount) (hf : ∀ b, (f b).id = b.id) (h : j ≠ i) :
    findById (adjustById l i f) j = findById l j := by
  induction l with
  | nil => rfl
  | cons a rest ih =>
    by_cases ha : a.id = i
    · have hfa : (f a).id = a.id := hf a
      have hij : i ≠ j := Ne.symm h
      simp [adjustById, findById, ha, hfa, hij]
    · by_cases hj : a.id = j
      · simp [adjustById, findById, ha, hj, h]
      · simp [adjustById, findById, ha, hj, ih]

theorem adjustById_absent (l : List BankAccount) (i : String)
    (f : BankAccount → BankAccount) (h : findById l i = none) :
    adjustById l i f = l := by
  induction l with
  | nil => rfl
  | cons a rest ih =>
    by_cases ha : a.id = i
    · simp [findById, ha] at h
    · simp [findById, ha] at h
      simp [adjustById, ha, ih h]

theorem sum_adjustById (l : List BankAccount) (i : String) (δ : Int)
    (f : BankAccount → BankAccount)
    (hf : ∀ b, (f b).balance = b.balance + δ)
    (h : (findById l i).isSome = true) :
    ((adjustById l i f).map (fun a => a.balance)).sum =
      (l.map (fun a => a.balance)).sum + δ := by
  induction l with
  | nil => simp [findById] at h
  | cons a rest ih =>
    by_cases ha : a.id = i
    · simp [adjustById, ha, hf a]
      ring
    · simp [findById, ha] at h
      simp [adjustById, ha, ih h]
      ring

theorem isSome_findById_adjustById (l : List BankAccount) (i j : String)
    (f : BankAccount → BankAccount) (hf : ∀ b, (f b).id = b.id)
    (h : (findById l j).isSome = true) :
    (findById (adjustById l i f) j).isSome = true := by
  by_cases hij : j = i
  · subst hij
    rw [findById_adjustById_self l j f hf]
    cases hh : findById l j
    · rw [hh] at h; simp at h
    · simp
  · rw [findById_adjustById_ne l i j f hf hij]
    exact h

theorem findByNumber_findById (l : List BankAccount) (n : String)
    (a : BankAccount) (h : findByNumber l n = some a) :
    (findById l a.id).isSome = true := by
  induction l with
  | nil => simp [findByNumber] at h
  | cons b rest ih =>
    by_cases hb : b.accountNumber = n
    · simp [findByNumber, hb] at h
      simp [findById, h]
    · simp [findByNumber, hb] at h
      by_cases hid : b.id = a.id
      · simp [findById, hid]
      · simp [findById, hid, ih h]

theorem execute_transfer_sum (s : BankState) (fromId toId : String)
    (amount : Int) (d txId : String) (now : Nat)
    (hfrom : (findById s.accounts fromId).isSome = true)
    (hto : (findById s.accounts toId).isSome = true) :
    sumBalances (execute_transfer s fromId toId amount d txId now).1 =
      sumBalances s := by
  simp only [execute_transfer, sumBalances]
  rw [sum_adjustById _ toId amount _ (fun b => by simp [creditAccount])
      (isSome_findById_adjustById _ fromId toId _ (fun b => by simp [debitAccount]) hto)]
  rw [sum_adjustById _ fromId (-amount) _
      (fun b => by simp [debitAccount, sub_eq_add_neg]) hfrom]
  ring

theorem execute_transfer_deltas (s : BankState) (aId bId : String)
    (A B : BankAccount) (x : Int) (d txId : String) (now : Nat)
    (hA : findById s.accounts aId = some A)
    (hB : findById s.accounts bId = some B) (hne : aId ≠ bId) :
    balanceOf (execute_transfer s aId bId x d txId now).1 aId = A.balance - x ∧
    balanceOf (execute_transfer s aId bId x d txId now).1 bId = B.balance + x ∧
    accountVersionOf (execute_transfer s aId bId x d txId now).1 aId = A.version + 1 ∧
    accountVersionOf (execute_transfer s aId bId x d txId now).1 bId = B.version + 1 := by
  have hdid : ∀ b : BankAccount, (debitAccount x now b).id = b.id := by
    intro b; simp [debitAccount]
  have hcid : ∀ b : BankAccount, (creditAccount x now b).id = b.id := by
    intro b; simp [creditAccount]
  have ha' : findById (execute_transfer s aId bId x d txId now).1.accounts aId =
      some (debitAccount x now A) := by
    simp only [execute_transfer]
    rw [findById_adjustById_ne _ bId aId _ hcid hne,
        findById_adjustById_self _ aId _ hdid, hA]
    rfl
  have hb' : findById (execute_transfer s aId bId x d txId now).1.accounts bId =
      some (creditAccount x now B) := by
    simp only [execute_transfer]
    rw [findById_adjustById_self _ bId _ hcid,
        findById_adjustById_ne _ aId bId _ hdid (Ne.symm hne), hB]
    rfl
  refine ⟨?_, ?_, ?_, ?_⟩
  · rw [balanceOf, ha']; simp [debitAccount]
  · rw [balanceOf, hb']; simp [creditAccount]
  · rw [accountVersionOf, ha']; simp [debitAccount]
  · rw [accountVersionOf, hb']; simp [creditAccount]

theorem create_transfer_sum (s : BankState) (req : TransferReq) (now : Nat)
    (nowIso txId : String) :
    sumBalances (create_transfer s req now nowIso txId).state = sumBalances s := by
  simp only [create_transfer]
  split
  · rfl
  · split
    · rfl
    · split
      · rfl
      · rename_i fromAcc hfrom
        split
        · rfl
        · rename_i toAcc hto
          split
          · rfl
          · exact execute_transfer_sum s fromAcc.id toAcc.id req.amount
              (match req.description with
               | some d => d
               | none => "Transfer to " ++ toAcc.accountHolderName) txId now
              (findByNumber_findById _ _ _ hfrom)
              (findByNumber_findById _ _ _ hto)

theorem process_transfers_sum (reqs : List (TransferReq × Nat × String × String))
    (s : BankState) :
    sumBalances (process_transfers s reqs) = sumBalances s := by
  induction reqs generalizing s with
  | nil => rfl
  | cons hd tl ih =>
    exact (ih _).trans (create_transfer_sum s hd.1 hd.2.1 hd.2.2.1 hd.2.2.2)

/-- C2.  For every completed transfer of amount `x` from account A to
account B executed by the ledger, A's balance decreases by exactly `x`, B's
balance increases by exactly `x`, both versions are incremented by exactly 1,
and the recorded entry is a COMPLETED TRANSFER of amount `x`; consequently
the sum of balances over all accounts is unchanged by any sequence of
requests of the TRANSFER endpoint (DEPOSIT/WITHDRAWAL are not among its
operations). -/
theorem transfer_conservation :
    (∀ (s : BankState) (aId bId : String) (A B : BankAccount) (x : Int)
       (d txId : String) (now : Nat),
      findById s.accounts aId = some A → findById s.accounts bId = some B →
      aId ≠ bId →
      balanceOf (execute_transfer s aId bId x d txId now).1 aId =
        A.balance - x ∧
      balanceOf (execute_transfer s aId bId x d txId now).1 bId =
        B.balance + x ∧
      accountVersionOf (execute_transfer s aId bId x d txId now).1 aId =
        A.version + 1 ∧
      accountVersionOf (execute_transfer s aId bId x d txId now).1 bId =
        B.version + 1 ∧
      (execute_transfer s aId bId x d txId now).2.status = "COMPLETED" ∧
      (execute_transfer s aId bId x d txId now).2.transactionType = "TRANSFER" ∧
      (execute_transfer s aId bId x d txId now).2.amount = x) ∧
    (∀ (s : BankState) (reqs : List (TransferReq × Nat × String × String)),
      sumBalances (process_transfers s reqs) = sumBalances s) := by
  constructor
  · intro s aId bId A B x d txId now hA hB hne
    have h := execute_transfer_deltas s aId bId A B x d txId now hA hB hne
    exact ⟨h.1, h.2.1, h.2.2.1, h.2.2.2, rfl, rfl, rfl⟩
  · intro s reqs
    exact process_transfers_sum reqs s

/-- Closed instantiation of C2: transferring 75.00 from Alice (500.00) to
Bob (100.00) leaves 425.00 and 175.00 with both versions bumped to 2. -/
theorem transfer_conservation_witness :
    balanceOf (execute_transfer bankStateW "acct-a" "acct-b" 7500 "d" "tx1" 9).1
      "acct-a" = 42500 ∧
    balanceOf (execute_transfer bankStateW "acct-a" "acct-b" 7500 "d" "tx1" 9).1
      "acct-b" = 17500 ∧
    accountVersionOf (execute_transfer bankStateW "acct-a" "acct-b" 7500 "d" "tx1" 9).1
      "acct-a" = 2 := by
  have h := transfer_conservation.1 bankStateW "acct-a" "acct-b" acctAW acctBW
    7500 "d" "tx1" 9 (by decide) (by decide) (by decide)
  exact ⟨h.1, h.2.1, h.2.2.1⟩

/-- C10.  `execute_transfer` itself performs no validation: for any pair of
(present, distinct) accounts and ANY amount — zero, negative, exceeding the
source balance — and any account statuses, it unconditionally applies the
debit and credit and records a COMPLETED TRANSFER entry; `validate_transfer`
(the guard used only by the calling endpoint) rejects the concrete
over-balance input below, yet a direct `execute_transfer` call on it drives
the ACTIVE account `acct-p` (balance 10.00) to -90.00. -/
theorem execute_transfer_unguarded :
    (∀ (s : BankState) (aId bId : String) (A B : BankAccount) (x : Int)
       (d txId : String) (now : Nat),
      findById s.accounts aId = some A → findById s.accounts bId = some B →
      aId ≠ bId →
      balanceOf (execute_transfer s aId bId x d txId now).1 aId =
        A.balance - x ∧
      balanceOf (execute_transfer s aId bId x d txId now).1 bId =
        B.balance + x ∧
      (execute_transfer s aId bId x d txId now).2.status = "COMPLETED" ∧
      (execute_transfer s aId bId x d txId now).2.transactionType = "TRANSFER") ∧
    (validate_transfer acctPoorW acctBW 10000).1 = false ∧
    acctPoorW.status = "ACTIVE" ∧
    balanceOf (execute_transfer bankStatePoorW "acct-p" "acct-b" 10000 "d" "t" 1).1
      "acct-p" = -9000 := by
  refine ⟨?_, by decide, by decide, by decide⟩
  intro s aId bId A B x d txId now hA hB hne
  have h := execute_transfer_deltas s aId bId A B x d txId now hA hB hne
  exact ⟨h.1, h.2.1, rfl, rfl⟩

/-- Closed instantiation of the universally quantified part of the
unguarded-ledger theorem, at the over-balance input. -/
theorem execute_transfer_unguarded_witness :
    balanceOf (execute_transfer bankStatePoorW "acct-p" "acct-b" 10000 "d" "t" 1).1
      "acct-p" = acctPoorW.balance - 10000 :=
  (execute_transfer_unguarded.1 bankStatePoorW "acct-p" "acct-b" acctPoorW
    acctBW 10000 "d" "t" 1 (by decide) (by decide) (by decide)).1

/-- C5 (code bug).  The first-time path of `create_transfer` has TWO commit
points: the `db.commit()` inside `execute_transfer` makes the balance
updates and the COMPLETED entry durable while no `TransferIdempotency`
record for the key exists yet; the record only becomes durable at the second
commit.  A crash between them leaves durably applied balances with no
idempotency record, so a retried request with the same key would re-apply
them — contradicting the claim that no such commit point exists. -/
theorem transfer_ledger_commit_precedes_idem_commit :
    (create_transfer bankStateW transferReqW 9 "t0" "tx1").commits.length = 2 ∧
    balanceOf ((create_transfer bankStateW transferReqW 9 "t0" "tx1").commits.headD
      bankStateW) "acct-a" = 42500 ∧
    balanceOf ((create_transfer bankStateW transferReqW 9 "t0" "tx1").commits.headD
      bankStateW) "acct-b" = 17500 ∧
    alookup ((create_transfer bankStateW transferReqW 9 "t0" "tx1").commits.headD
      bankStateW).idemDB (IdemKey.given "K") = none ∧
    (alookup (create_transfer bankStateW transferReqW 9 "t0" "tx1").state.idemDB
      (IdemKey.given "K")).isSome = true := by
  refine ⟨?_, ?_, ?_, ?_, ?_⟩ <;> decide

theorem execute_transfer_findById (s : BankState) (aId bId : String)
    (A B : BankAccount) (x : Int) (d txId : String) (now : Nat)
    (hA : findById s.accounts aId = some A)
    (hB : findById s.accounts bId = some B) (hne : aId ≠ bId) :
    findById (execute_transfer s aId bId x d txId now).1.accounts aId =
      some (debitAccount x now A) ∧
    findById (execute_transfer s aId bId x d txId now).1.accounts bId =
      some (creditAccount x now B) := by
  have hdid : ∀ b : BankAccount, (debitAccount x now b).id = b.id := by
    intro b; simp [debitAccount]
  have hcid : ∀ b : BankAccount, (creditAccount x now b).id = b.id := by
    intro b; simp [creditAccount]
  constructor
  · simp only [execute_transfer]
    rw [findById_adjustById_ne _ bId aId _ hcid hne,
        findById_adjustById_self _ aId _ hdid, hA]
    rfl
  · simp only [execute_transfer]
    rw [findById_adjustById_self _ bId _ hcid,
        findById_adjustById_ne _ aId bId _ hdid (Ne.symm hne), hB]
    rfl

theorem reverse_transaction_completed (s : BankState) (txId newTxId : String)
    (now : Nat) (tx : Transaction)
    (h : findTxById s.transactions txId = some tx)
    (hst : tx.status = "COMPLETED") (hty : tx.transactionType = "TRANSFER") :
    reverse_transaction s txId newTxId now =
      (let r := execute_transfer s tx.toAccountId tx.fromAccountId tx.amount
                  ("Reversal of transaction " ++ txId) newTxId now
       ({ r.1 with
          transactions := adjustTxById r.1.transactions txId
            (fun t => { t with status := "REVERSED" }) }, Except.ok r.2)) := by
  simp only [reverse_transaction]
  rw [h]
  simp [hst, hty]

theorem reverse_transaction_rejects (s : BankState) (txId newTxId : String)
    (now : Nat) (tx : Transaction)
    (h : findTxById s.transactions txId = some tx)
    (hbad : tx.status ≠ "COMPLETED" ∨ tx.transactionType ≠ "TRANSFER") :
    (reverse_transaction s txId newTxId now).1 = s ∧
    ∃ e, (reverse_transaction s txId newTxId now).2 = Except.error e := by
  simp only [reverse_transaction]
  rw [h]
  by_cases hst : tx.status = "COMPLETED"
  · have hty : tx.transactionType ≠ "TRANSFER" := by
      rcases hbad with hb | hb
      · exact absurd hst hb
      · exact hb
    simp [hst, hty]
  · simp [hst]

theorem reverse_transaction_notFound (s : BankState) (txId newTxId : String)
    (now : Nat) (h : findTxById s.transactions txId = none) :
    reverse_transaction s txId newTxId now =
      (s, Except.error "Transaction not found") := by
  simp only [reverse_transaction]
  rw [h]

/-- C8.  Reversing the COMPLETED TRANSFER created by `execute_transfer`
executes a fresh COMPLETED TRANSFER of the same amount from B to A and marks
the original entry REVERSED, after which both balances equal their
pre-transfer values; and reversal is rejected with an error, leaving the
state untouched, for any entry that is not a COMPLETED TRANSFER and for an
unknown entry id. -/
theorem transfer_reversal_roundtrip :
    (∀ (s : BankState) (aId bId : String) (A B : BankAccount) (x : Int)
       (d txId newTxId : String) (now now2 : Nat),
      findById s.accounts aId = some A → findById s.accounts bId = some B →
      aId ≠ bId → newTxId ≠ txId →
      (∃ rev,
        (reverse_transaction (execute_transfer s aId bId x d txId now).1
          txId newTxId now2).2 = Except.ok rev ∧
        rev.transactionType = "TRANSFER" ∧ rev.status = "COMPLETED" ∧
        rev.fromAccountId = bId ∧ rev.toAccountId = aId ∧ rev.amount = x) ∧
      balanceOf (reverse_transaction (execute_transfer s aId bId x d txId now).1
        txId newTxId now2).1 aId = A.balance ∧
      balanceOf (reverse_transaction (execute_transfer s aId bId x d txId now).1
        txId newTxId now2).1 bId = B.balance ∧
      findTxById (reverse_transaction (execute_transfer s aId bId x d txId now).1
        txId newTxId now2).1.transactions txId =
        some { (execute_transfer s aId bId x d txId now).2 with
               status := "REVERSED" }) ∧
    (∀ (s : BankState) (txId newTxId : String) (now : Nat) (tx : Transaction),
      findTxById s.transactions txId = some tx →
      tx.status ≠ "COMPLETED" ∨ tx.transactionType ≠ "TRANSFER" →
      (reverse_transaction s txId newTxId now).1 = s ∧
      ∃ e, (reverse_transaction s txId newTxId now).2 = Except.error e) ∧
    (∀ (s : BankState) (txId newTxId : String) (now : Nat),
      findTxById s.transactions txId = none →
      reverse_transaction s txId newTxId now =
        (s, Except.error "Transaction not found")) := by
  refine ⟨?_, reverse_transaction_rejects, reverse_transaction_notFound⟩
  intro s aId bId A B x d txId newTxId now now2 hA hB hne hfresh
  have hf1 := execute_transfer_findById s aId bId A B x d txId now hA hB hne
  have htx : findTxById (execute_transfer s aId bId x d txId now).1.transactions
      txId = some (execute_transfer s aId bId x d txId now).2 := by
    simp only [execute_transfer]
    simp [findTxById]
  have hrw := reverse_transaction_completed
    (execute_transfer s aId bId x d txId now).1 txId newTxId now2
    (execute_transfer s aId bId x d txId now).2 htx rfl rfl
  have e1 : (execute_transfer s aId bId x d txId now).2.toAccountId = bId := rfl
  have e2 : (execute_transfer s aId bId x d txId now).2.fromAccountId = aId := rfl
  have e3 : (execute_transfer s aId bId x d txId now).2.amount = x := rfl
  rw [e1, e2, e3] at hrw
  have hf2 := execute_transfer_findById (execute_transfer s aId bId x d txId now).1
    bId aId (creditAccount x now B) (debitAccount x now A) x
    ("Reversal of transaction " ++ txId) newTxId now2 hf1.2 hf1.1 (Ne.symm hne)
  rw [hrw]
  refine ⟨⟨_, rfl, rfl, rfl, rfl, rfl, rfl⟩, ?_, ?_, ?_⟩
  · show balanceOf (execute_transfer (execute_transfer s aId bId x d txId now).1
      bId aId x ("Reversal of transaction " ++ txId) newTxId now2).1 aId = A.balance
    rw [balanceOf, hf2.2]
    simp [creditAccount, debitAccount]
  · show balanceOf (execute_transfer (execute_transfer s aId bId x d txId now).1
      bId aId x ("Reversal of transaction " ++ txId) newTxId now2).1 bId = B.balance
    rw [balanceOf, hf2.1]
    simp [creditAccount, debitAccount]
  · show findTxById (adjustTxById (execute_transfer
        (execute_transfer s aId bId x d txId now).1 bId aId x
        ("Reversal of transaction " ++ txId) newTxId now2).1.transactions txId
        (fun t => { t with status := "REVERSED" })) txId =
      some { (execute_transfer s aId bId x d txId now).2 with status := "REVERSED" }
    simp only [execute_transfer]
    simp [adjustTxById, findTxById, hfresh]

/-- Closed instantiation of C8: transfer 75.00 Alice→Bob then reverse it;
both balances return to 500.00 and 100.00. -/
theorem transfer_reversal_roundtrip_witness :
    balanceOf (reverse_transaction
      (execute_transfer bankStateW "acct-a" "acct-b" 7500 "d" "tx1" 9).1
      "tx1" "tx2" 10).1 "acct-a" = 50000 ∧
    balanceOf (reverse_transaction
      (execute_transfer bankStateW "acct-a" "acct-b" 7500 "d" "tx1" 9).1
      "tx1" "tx2" 10).1 "acct-b" = 10000 := by
  have h := transfer_reversal_roundtrip.1 bankStateW "acct-a" "acct-b"
    acctAW acctBW 7500 "d" "tx1" "tx2" 9 10
    (by decide) (by decide) (by decide) (by decide)
  exact ⟨h.2.1, h.2.2.1⟩

/-- C7.  Creating a pledge writes the donation row and its DonationCreated
outbox row in one transaction: when the commit succeeds both exist (the
outbox row carrying the donation's id as aggregate id), when it fails the
state is exactly the prior one; hence, for a fresh id, a donation row exists
in the resulting state if and only if its outbox row does. -/
theorem donation_outbox_atomic (s : DonationState) (req : DonationCreate)
    (newId : String) (now : Nat) (commitOk : Bool)
    (hd : hasDonation s newId = false) (ho : hasOutboxFor s newId = false) :
    (commitOk = true →
      hasDonation (create_donation s req newId now commitOk).1 newId = true ∧
      hasOutboxFor (create_donation s req newId now commitOk).1 newId = true ∧
      (create_donation s req newId now commitOk).2 ≠ DonationResp.serverError) ∧
    (commitOk = false →
      (create_donation s req newId now commitOk).1 = s ∧
      (create_donation s req newId now commitOk).2 = DonationResp.serverError) ∧
    (hasDonation (create_donation s req newId now commitOk).1 newId =
      hasOutboxFor (create_donation s req newId now commitOk).1 newId) := by
  cases commitOk with
  | true =>
    refine ⟨fun _ => ⟨?_, ?_, ?_⟩, fun h => absurd h (by simp), ?_⟩
    · simp [create_donation, hasDonation]
    · simp [create_donation, hasOutboxFor, create_outbox_event]
    · simp [create_donation]
    · simp [create_donation, hasDonation, hasOutboxFor, create_outbox_event]
  | false =>
    refine ⟨fun h => absurd h (by simp), fun _ => ⟨rfl, rfl⟩, ?_⟩
    simp [create_donation, hd, ho]

/-- Closed instantiation of C7 at the fixture request, on both commit
outcomes. -/
theorem donation_outbox_atomic_witness :
    (hasDonation (create_donation ⟨[], []⟩ donationReqW "don-1" 4 true).1
      "don-1" = true ∧
     hasOutboxFor (create_donation ⟨[], []⟩ donationReqW "don-1" 4 true).1
      "don-1" = true) ∧
    (create_donation ⟨[], []⟩ donationReqW "don-1" 4 false).1 = ⟨[], []⟩ := by
  have h1 := donation_outbox_atomic ⟨[], []⟩ donationReqW "don-1" 4 true
    (by decide) (by decide)
  have h2 := donation_outbox_atomic ⟨[], []⟩ donationReqW "don-1" 4 false
    (by decide) (by decide)
  exact ⟨⟨(h1.1 rfl).1, (h1.1 rfl).2.1⟩, (h2.2.1 rfl).1⟩

/-- C9 counterexample.  Two bus deliveries of the same donation event (same
donation and event kind) make the consumer insert TWO notification rows and
send TWO emails: the callback has no dedup check and the notification table
has no `(pledge_ref, event_kind)` uniqueness constraint (nor even an
event-kind column), so the claimed at-most-one bound is false. -/
theorem notification_duplicate_delivery_duplicates :
    notifCountFor (process_donation_event
      (process_donation_event ⟨[], []⟩ donationMsgW "n-1" true 1)
      donationMsgW "n-2" true 2) "don-1" = 2 ∧
    (process_donation_event
      (process_donation_event ⟨[], []⟩ donationMsgW "n-1" true 1)
      donationMsgW "n-2" true 2).emails.length = 2 := by
  constructor <;> decide

/-- C9 amended.  The notification consumer performs no deduplication at all:
every delivery of a donation event unconditionally inserts one fresh
notification row (random-id primary key only) and attempts exactly one
email, so `k` deliveries of the same event produce exactly `k` rows for that
donation and `k` email attempts. -/
theorem notification_row_per_delivery :
    (∀ (s : NotifState) (msg : DonationEventMsg) (newId : String)
       (emailOk : Bool) (now : Nat),
      notifCountFor (process_donation_event s msg newId emailOk now)
          msg.donationId =
        notifCountFor s msg.donationId + 1 ∧
      (process_donation_event s msg newId emailOk now).emails.length =
        s.emails.length + 1) ∧
    (∀ (s : NotifState) (msg : DonationEventMsg)
       (deliveries : List (String × Bool × Nat)),
      notifCountFor (deliveries.foldl
          (fun st p => process_donation_event st msg p.1 p.2.1 p.2.2) s)
          msg.donationId =
        notifCountFor s msg.donationId + deliveries.length) := by
  have hstep : ∀ (s : NotifState) (msg : DonationEventMsg) (newId : String)
      (emailOk : Bool) (now : Nat),
      notifCountFor (process_donation_event s msg newId emailOk now)
          msg.donationId =
        notifCountFor s msg.donationId + 1 ∧
      (process_donation_event s msg newId emailOk now).emails.length =
        s.emails.length + 1 := by
    intro s msg newId emailOk now
    constructor
    · simp [process_donation_event, notifCountFor]
    · simp [process_donation_event]
  refine ⟨hstep, ?_⟩
  intro s msg deliveries
  induction deliveries generalizing s with
  | nil => rfl
  | cons hd tl ih =>
    have h := (hstep s msg hd.1 hd.2.1 hd.2.2).1
    simp only [List.foldl, List.length_cons]
    rw [ih, h]
    omega

/-- C4 counterexample.  Two P2P transfer requests with identical bodies
(same from, to, amount) and no `X-Idempotency-Key` header derive DIFFERENT
idempotency keys when processed at different wall-clock times, because the
endpoint hashes `from:to:amount:utcnow()` — so the derived key is not a
function of the body alone and the second request is not treated as a
replay. -/
theorem transfer_idem_key_depends_on_time :
    transfer_idem_key none "1111111111" "2222222222" 7500
        "2024-01-01T00:00:00" ≠
      transfer_idem_key none "1111111111" "2222222222" 7500
        "2024-01-01T00:00:01" := by
  decide

/-- C4 amended.  When the header is absent, the webhook endpoint derives the
key as SHA-256 of the raw body alone (so identical bodies always derive the
same key there), while the transfer endpoint hashes
`from:to:amount:current-time`: two such transfer requests derive the same
key if and only if they also agree on the wall-clock timestamp string. -/
theorem idem_key_derivation :
    (∀ b : String, webhook_idem_key none b = IdemKey.sha256 b) ∧
    (∀ (f t : String) (a : Int) (n : String),
      transfer_idem_key none f t a n =
        IdemKey.sha256 (f ++ ":" ++ t ++ ":" ++ toString a ++ ":" ++ n)) ∧
    (∀ (f t : String) (a : Int) (n1 n2 : String),
      transfer_idem_key none f t a n1 = transfer_idem_key none f t a n2 ↔
        n1 = n2) := by
  refine ⟨fun b => rfl, fun f t a n => rfl, ?_⟩
  intro f t a n1 n2
  constructor
  · intro h
    simp only [transfer_idem_key, IdemKey.sha256.injEq] at h
    exact string_append_left_cancel h
  · intro h
    rw [h]
